import Mathlib

/-!
Verification of the SDO client transfer state machine of the `canopen`
package (`canopen/sdo.py`), as a shallow embedding in Lean.

Frames are lists of byte values (`List Nat`, each entry `< 256` on the wire).
The CAN bus and real time are abstracted: the sequence of frames that arrive
in the response mailbox is passed explicitly to each function, with `none`
standing for a timeout of `read_response`.
-/

set_option maxRecDepth 4000

/-- An 8-byte SDO frame, as a list of byte values. -/
abbrev Frame := List Nat

/-- `byte f i` is the `i`-th byte of a frame (`struct.unpack_from "B"`). -/
def byte (f : Frame) (i : Nat) : Nat := f.getD i 0

/-- `sliceB f a b` is the Python slicing `f[a:b]`. -/
def sliceB (f : Frame) (a b : Nat) : List Nat := (f.take b).drop a

/-- Little-endian 16-bit value at offset `off` (`struct.unpack_from "<H"`). -/
def le16 (f : Frame) (off : Nat) : Nat := byte f off + 256 * byte f (off + 1)

/-- Little-endian 32-bit value at offset `off` (`struct.unpack_from "<L"`). -/
def le32 (f : Frame) (off : Nat) : Nat :=
  byte f off + 256 * byte f (off + 1) + 65536 * byte f (off + 2) +
    16777216 * byte f (off + 3)

/-- The four bytes of `n` packed little-endian (`struct.pack_into "<L"`). -/
def le32Bytes (n : Nat) : List Nat :=
  [n % 256, n / 256 % 256, n / 65536 % 256, n / 16777216 % 256]

/-- `SDO_STRUCT.pack(command, index, subindex)`: command byte, little-endian
16-bit index, subindex byte. -/
def sdoHeader (command index subindex : Nat) : List Nat :=
  [command, index % 256, index / 256 % 256, subindex]

def REQUEST_SEGMENT_DOWNLOAD : Nat := 0 <<< 5
def REQUEST_DOWNLOAD : Nat := 1 <<< 5
def REQUEST_UPLOAD : Nat := 2 <<< 5
def REQUEST_SEGMENT_UPLOAD : Nat := 3 <<< 5
def REQUEST_ABORTED : Nat := 4 <<< 5
def REQUEST_BLOCK_UPLOAD : Nat := 5 <<< 5
def REQUEST_BLOCK_DOWNLOAD : Nat := 6 <<< 5

def RESPONSE_SEGMENT_UPLOAD : Nat := 0 <<< 5
def RESPONSE_SEGMENT_DOWNLOAD : Nat := 1 <<< 5
def RESPONSE_UPLOAD : Nat := 2 <<< 5
def RESPONSE_DOWNLOAD : Nat := 3 <<< 5
def RESPONSE_ABORTED : Nat := 4 <<< 5
def RESPONSE_BLOCK_DOWNLOAD : Nat := 5 <<< 5
def RESPONSE_BLOCK_UPLOAD : Nat := 6 <<< 5

def INITIATE_BLOCK_TRANSFER : Nat := 0
def END_BLOCK_TRANSFER : Nat := 1
def BLOCK_TRANSFER_RESPONSE : Nat := 2
def START_BLOCK_UPLOAD : Nat := 3

def EXPEDITED : Nat := 0x2
def SIZE_SPECIFIED : Nat := 0x1
def BLOCK_SIZE_SPECIFIED : Nat := 0x2
def CRC_SUPPORTED : Nat := 0x4
def NO_MORE_DATA : Nat := 0x1
def NO_MORE_BLOCKS : Nat := 0x80
def TOGGLE_BIT : Nat := 0x10

/-- The exceptions the SDO client code can raise: `SdoCommunicationError`,
`SdoAbortedError{code}`, Python `RuntimeError` and `AssertionError`. -/
inductive SdoErr where
  | comm (msg : String)
  | aborted (code : Nat)
  | runtime (msg : String)
  | assertionFailed (msg : String)
deriving Repr, DecidableEq

namespace SdoClient

/-- `SdoClient.MAX_RETRIES`: max number of request retries before raising. -/
def MAX_RETRIES : Nat := 1

/-- `SdoClient.read_response`: take the next frame from the response mailbox
(`none` means the `RESPONSE_TIMEOUT` deadline expired with no frame).
An abort frame raises `SdoAbortedError` with the little-endian code from
bytes 4..8. -/
def read_response (resp : Option Frame) : Except SdoErr Frame :=
  match resp with
  | none => .error (.comm "No SDO response received")
  | some response =>
    let res_command := byte response 0
    if res_command = RESPONSE_ABORTED then
      .error (.aborted (le32 response 4))
    else
      .ok response

/-- The retry loop of `SdoClient.request_response`: each iteration sends the
request once and waits for a frame; `arrivals` lists, per iteration, the
frame that arrived (`none` = timeout).  On a communication error the counter
is decremented and the loop raises exactly when it reaches zero; an
`SdoAbortedError` propagates immediately.  Returns the number of sends made
together with the outcome.  (For `retriesLeft = 0` the Python loop never
terminates; that case is not modelled.) -/
def requestResponseGo : Nat → List (Option Frame) → Nat → Nat × Except SdoErr Frame
  | retriesLeft, arrivals, sends =>
    match read_response (arrivals.headD none) with
    | .ok r => (sends + 1, .ok r)
    | .error (.aborted c) => (sends + 1, .error (.aborted c))
    | .error e =>
      match retriesLeft with
      | 0 => (sends + 1, .error e)
      | 1 => (sends + 1, .error e)
      | n + 2 => requestResponseGo (n + 1) arrivals.tail (sends + 1)

/-- `SdoClient.request_response`: flush the mailbox, then run the send /
wait-for-response loop with `maxRetries` as the initial retry counter. -/
def request_response (maxRetries : Nat) (arrivals : List (Option Frame)) :
    Nat × Except SdoErr Frame :=
  requestResponseGo maxRetries arrivals 0

/-- `SdoClient.abort`: the 8-byte abort request frame, command byte
`REQUEST_ABORTED`, abort code little-endian in bytes 4..8. -/
def abortFrame (abort_code : Nat) : Frame :=
  [REQUEST_ABORTED, 0, 0, 0] ++ le32Bytes abort_code

end SdoClient

/-- The state of a `ReadableStream` (expedited / segmented upload):
`_done`, `_toggle`, `pos`, `size`, `exp_data`. -/
structure RStream where
  done : Bool
  toggle : Nat
  pos : Nat
  size : Option Nat
  exp_data : Option (List Nat)
deriving Repr, DecidableEq

namespace ReadableStream

/-- `ReadableStream.__init__` after the initiate-upload request was answered:
`arrival` is the mailbox outcome of `request_response` (the response frame,
or `none` on a final timeout).  Decodes the initiate-upload response into the
initial stream state. -/
def init (index subindex : Nat) (arrival : Option Frame) : Except SdoErr RStream :=
  match SdoClient.read_response arrival with
  | .error e => .error e
  | .ok response =>
    let res_command := byte response 0
    let res_index := le16 response 1
    let res_subindex := byte response 3
    let res_data := sliceB response 4 8
    if res_command &&& 0xE0 ≠ RESPONSE_UPLOAD then
      .error (.comm "Unexpected response")
    else if res_index ≠ index ∨ res_subindex ≠ subindex then
      .error (.comm "Node returned a value for another object")
    else if res_command &&& EXPEDITED ≠ 0 then
      if res_command &&& SIZE_SPECIFIED ≠ 0 then
        let size := 4 - ((res_command >>> 2) &&& 0x3)
        let ed := res_data.take size
        .ok { done := false, toggle := 0, pos := 0 + ed.length,
              size := some size, exp_data := some ed }
      else
        .ok { done := false, toggle := 0, pos := 0 + res_data.length,
              size := none, exp_data := some res_data }
    else if res_command &&& SIZE_SPECIFIED ≠ 0 then
      .ok { done := false, toggle := 0, pos := 0,
            size := some (le32 response 4), exp_data := none }
    else
      .ok { done := false, toggle := 0, pos := 0, size := none, exp_data := none }

/-- `ReadableStream.read` with a positive `size` argument (one segment):
`arrival` is the response to the segment-upload request.  Returns the new
state and the data bytes of this segment. -/
def read (s : RStream) (arrival : Option Frame) :
    Except SdoErr (RStream × List Nat) :=
  if s.done then .ok (s, [])
  else match s.exp_data with
  | some ed => .ok ({ s with done := true }, ed)
  | none =>
    match SdoClient.read_response arrival with
    | .error e => .error e
    | .ok response =>
      let res_command := byte response 0
      if res_command &&& 0xE0 ≠ RESPONSE_SEGMENT_UPLOAD then
        .error (.comm "Unexpected response")
      else if res_command &&& TOGGLE_BIT ≠ s.toggle then
        .error (.comm "Toggle bit mismatch")
      else
        let length := 7 - ((res_command >>> 1) &&& 0x7)
        let s1 := if res_command &&& NO_MORE_DATA ≠ 0 then { s with done := true } else s
        .ok ({ s1 with toggle := s.toggle ^^^ TOGGLE_BIT, pos := s.pos + length },
             sliceB response 1 (length + 1))

/-- The segment loop of `RawIOBase.readall`: repeatedly call
`ReadableStream.read`, one response frame per segment, until the stream is
done or a read returns no bytes. -/
def readSegments : RStream → List Frame → Except SdoErr (RStream × List Nat)
  | s, [] => .ok (s, [])
  | s, r :: rest =>
    if s.done then .ok (s, [])
    else
      match read s (some r) with
      | .error e => .error e
      | .ok (s1, data) =>
        if data.isEmpty then .ok (s1, [])
        else
          match readSegments s1 rest with
          | .error e => .error e
          | .ok (s2, tail) => .ok (s2, data ++ tail)

/-- `ReadableStream.read` with `size = -1` (as called by `SdoClient.upload`):
returns the expedited bytes if any, else drains all segments. -/
def readall (s : RStream) (arrivals : List Frame) :
    Except SdoErr (RStream × List Nat) :=
  if s.done then .ok (s, [])
  else match s.exp_data with
  | some ed => .ok ({ s with done := true }, ed)
  | none => readSegments s arrivals

end ReadableStream

/-- `SdoClient.upload`: open a `ReadableStream` on `(index, subindex)` and
read everything.  `initArrival` is the server's answer to the initiate
request, `segArrivals` the answers to the successive segment requests. -/
def SdoClient.upload (index subindex : Nat) (initArrival : Option Frame)
    (segArrivals : List Frame) : Except SdoErr (RStream × List Nat) :=
  match ReadableStream.init index subindex initArrival with
  | .error e => .error e
  | .ok s => ReadableStream.readall s segArrivals

/-- `objectdictionary.DOMAIN` object code. -/
def DOMAIN : Nat := 0x02

/-- `Variable.set_data`: the `force_segment` flag passed to `download` is set
exactly when the object dictionary entry's data type is `DOMAIN`. -/
def Variable.set_data_force (data_type : Nat) : Bool := data_type == DOMAIN

/-- Python `data.ljust(width, b"\x00")`: pad a byte string on the right with
zero bytes up to `width`. -/
def ljust (b : List Nat) (width : Nat) : List Nat :=
  b ++ List.replicate (width - b.length) 0

/-- Outcome of the `WritableStream.__init__` mode selection: either the
8-byte segmented initiate-download request, or the 4-byte expedited header
kept for the later `write` call. -/
inductive WInit where
  | segmented (request : Frame)
  | expedited (header : List Nat)
deriving Repr, DecidableEq

namespace WritableStream

/-- The mode selection of `WritableStream.__init__` (lines 474-492): segmented
when `size is None or size > 4 or force_segment`, else expedited.  For the
segmented mode the initiate request is built (`SIZE_SPECIFIED` and the
little-endian size in bytes 4..8 exactly when the size is known); for the
expedited mode the prepared 4-byte header is returned. -/
def initRequest (index subindex : Nat) (size : Option Nat)
    (force_segment : Bool) : WInit :=
  if size = none ∨ 4 < size.getD 0 ∨ force_segment = true then
    let command := REQUEST_DOWNLOAD ||| (if size.isSome then SIZE_SPECIFIED else 0)
    let tailBytes := match size with
      | some sz => le32Bytes sz
      | none => [0, 0, 0, 0]
    WInit.segmented (sdoHeader command index subindex ++ tailBytes)
  else
    WInit.expedited
      (sdoHeader (REQUEST_DOWNLOAD ||| EXPEDITED ||| SIZE_SPECIFIED |||
        ((4 - size.getD 0) <<< 2)) index subindex)

end WritableStream

/-- The state of a `WritableStream`: `size`, `pos`, `_toggle`, `_exp_header`,
`_done`. -/
structure WStream where
  size : Option Nat
  pos : Nat
  toggle : Nat
  exp_header : Option (List Nat)
  done : Bool
deriving Repr, DecidableEq

namespace WritableStream

/-- `WritableStream.write` (lines 494-541).  `arrival` is the mailbox outcome
for the request/response exchange this call performs (if any).  Returns the
new state and the number of bytes consumed, paired with the list of request
frames sent.  In the expedited path (`_exp_header` set), a buffer shorter
than the declared size is not sent: the call returns 0 having sent nothing
and changed nothing. -/
def write (s : WStream) (b : List Nat) (arrival : Option Frame) :
    Except SdoErr (WStream × Nat) × List Frame :=
  if s.done then
    (.error (.runtime "All expected data has already been transmitted"), [])
  else match s.exp_header with
  | some header =>
    if b.length < s.size.getD 0 then
      (.ok (s, 0), [])
    else if 4 < b.length then
      (.error (.assertionFailed "More data received than expected"), [])
    else
      let request := header ++ ljust b 4
      match SdoClient.read_response arrival with
      | .error e => (.error e, [request])
      | .ok response =>
        if byte response 0 &&& 0xE0 ≠ RESPONSE_DOWNLOAD then
          (.error (.comm "Unexpected response"), [request])
        else
          let bytes_sent := b.length
          (.ok ({ s with done := true, pos := s.pos + bytes_sent }, bytes_sent),
           [request])
  | none =>
    let bytes_sent := min b.length 7
    let last := match s.size with
      | some sz => decide (sz ≤ s.pos + bytes_sent)
      | none => false
    let command := REQUEST_SEGMENT_DOWNLOAD ||| s.toggle |||
      (if last then NO_MORE_DATA else 0) ||| ((7 - bytes_sent) <<< 1)
    let request := command :: ljust (b.take bytes_sent) 7
    match SdoClient.read_response arrival with
    | .error e => (.error e, [request])
    | .ok response =>
      if byte response 0 &&& 0xE0 ≠ RESPONSE_SEGMENT_DOWNLOAD then
        (.error (.comm "Unexpected response"), [request])
      else
        let s1 : WStream :=
          { s with toggle := s.toggle ^^^ TOGGLE_BIT, done := last,
                   pos := s.pos + bytes_sent }
        (.ok (s1, bytes_sent), [request])

end WritableStream

/-- One shift step of `binascii.crc_hqx` (CRC-16-CCITT, polynomial `0x1021`,
MSB first, no reflection): shift left, xor the polynomial if the top bit was
set, keep 16 bits. -/
def crcShift (c : Nat) : Nat :=
  if c &&& 0x8000 ≠ 0 then ((c <<< 1) ^^^ 0x1021) &&& 0xFFFF
  else (c <<< 1) &&& 0xFFFF

/-- Feed one byte into the CRC: xor it into the high byte, then eight shift
steps. -/
def crcByte (crc b : Nat) : Nat :=
  crcShift (crcShift (crcShift (crcShift (crcShift (crcShift (crcShift
    (crcShift (crc ^^^ (b <<< 8)))))))))

/-- `binascii.crc_hqx(data, crc)`: CRC-16-CCITT over `data` starting from
`crc` (taken modulo 2^16). -/
def crc_hqx (data : List Nat) (crc : Nat) : Nat :=
  data.foldl crcByte (crc &&& 0xFFFF)

/-- The state of a `BlockUploadStream`: `_done`, `pos`, `_crc`,
`_server_crc`, `_ackseq`, `blksize`, `crc_supported`. -/
structure BUStream where
  done : Bool
  pos : Nat
  crc : Nat
  server_crc : Option Nat
  ackseq : Nat
  blksize : Nat
  crc_supported : Bool
deriving Repr, DecidableEq

/-- Outcome of one `BlockUploadStream.read` call: the new state, the data
bytes produced, the request frames sent during the call, and the unread rest
of the mailbox — or an error together with the frames sent before raising. -/
inductive BUResult where
  | ok (s : BUStream) (data : List Nat) (sent : List Frame) (rest : List Frame)
  | err (e : SdoErr) (sent : List Frame)
deriving Repr, DecidableEq

namespace BlockUploadStream

/-- The block-ack request frame sent by `_ack_block`: sub-command
`BLOCK_TRANSFER_RESPONSE`, byte 1 = `_ackseq`, byte 2 = `blksize`. -/
def ackFrame (s : BUStream) : Frame :=
  [REQUEST_BLOCK_UPLOAD ||| BLOCK_TRANSFER_RESPONSE, s.ackseq, s.blksize,
   0, 0, 0, 0, 0]

/-- `_ack_block`: send the block-ack frame; if the acknowledged sequence
completed a full block, reset `_ackseq` to 0. -/
def ack_block (s : BUStream) : BUStream × List Frame :=
  ((if s.ackseq = s.blksize then { s with ackseq := 0 } else s), [ackFrame s])

/-- The scan loop of `_retransmit`: drain the mailbox until a frame with
sequence number `_ackseq + 1` appears (abort frames raise, as in
`read_response`; an exhausted mailbox is a `read_response` timeout). -/
def retransmitFind (ackseq : Nat) : List Frame → Except SdoErr (Frame × List Frame)
  | [] => .error (.comm "No SDO response received")
  | r :: rest =>
    match SdoClient.read_response (some r) with
    | .error e => .error e
    | .ok response =>
      if byte response 0 &&& 0x7F = ackseq + 1 then .ok (response, rest)
      else retransmitFind ackseq rest

/-- `_retransmit`: re-send the last block-ack, then wait for the stream to
resynchronise at `_ackseq + 1`. -/
def retransmit (s : BUStream) (responses : List Frame) :
    (Except SdoErr (BUStream × Frame × List Frame)) × List Frame :=
  let (s1, sent) := ack_block s
  match retransmitFind s1.ackseq responses with
  | .error e => (.error e, sent)
  | .ok (r, rest) => (.ok ({ s1 with ackseq := s1.ackseq + 1 }, r, rest), sent)

/-- Lines 633-644 of `read`: obtain the next in-sequence data frame, going
through `_retransmit` on a timeout or on a sequence-number mismatch. -/
def getInSeq (s : BUStream) (responses : List Frame) :
    (Except SdoErr (BUStream × Frame × List Frame)) × List Frame :=
  match responses with
  | [] => retransmit s []
  | r :: rest =>
    match SdoClient.read_response (some r) with
    | .error e => (.error e, [])
    | .ok response =>
      let seqno := byte response 0 &&& 0x7F
      if seqno = s.ackseq + 1 then
        (.ok ({ s with ackseq := seqno }, response, rest), [])
      else
        retransmit s rest

/-- `_end_upload`: read the server's END frame, record the server CRC from
bytes 1..3, check class and sub-command (aborting with `0x05040001` on
mismatch), and return the number of unused bytes `(c >> 2) & 0x7` of the
final data frame. -/
def end_upload (s : BUStream) (responses : List Frame) :
    (Except SdoErr (BUStream × Nat × List Frame)) × List Frame :=
  match SdoClient.read_response responses.head? with
  | .error e => (.error e, [])
  | .ok response =>
    let res_command := byte response 0
    let s1 := { s with server_crc := some (le16 response 1) }
    if res_command &&& 0xE0 ≠ RESPONSE_BLOCK_UPLOAD then
      (.error (.comm "Unexpected response"), [SdoClient.abortFrame 0x05040001])
    else if res_command &&& 0x3 ≠ END_BLOCK_TRANSFER then
      (.error (.comm "Server did not end transfer as expected"),
       [SdoClient.abortFrame 0x05040001])
    else
      (.ok (s1, (res_command >>> 2) &&& 0x7, responses.tail), [])

/-- Lines 645-646 of `read`: send the block-ack when a block completed or
the last-frame bit is set; otherwise leave the state alone. -/
def ackIfNeeded (s1 : BUStream) (response : Frame) : BUStream × List Frame :=
  if s1.blksize ≤ s1.ackseq ∨ byte response 0 &&& NO_MORE_BLOCKS ≠ 0 then
    ack_block s1
  else (s1, [])

/-- Lines 653-660 of `read` for a non-final data frame: accumulate the CRC
over the frame's 7 data bytes (when CRC is in use) and advance `pos`. -/
def readChunk (s2 : BUStream) (data : List Nat) (sentAcc rest : List Frame) :
    BUResult :=
  if s2.crc_supported then
    .ok { s2 with crc := crc_hqx data s2.crc, pos := s2.pos + data.length }
      data sentAcc rest
  else .ok { s2 with pos := s2.pos + data.length } data sentAcc rest

/-- Lines 650-660 of `read` for the final data frame: mark done, accumulate
the CRC over the effective data bytes and compare with the server CRC,
aborting with `0x05040004` on mismatch. -/
def readFinish (s4 : BUStream) (data : List Nat) (sentAcc rest1 : List Frame) :
    BUResult :=
  if s4.crc_supported then
    if s4.server_crc ≠ some (crc_hqx data s4.crc) then
      .err (.comm "CRC is not OK") (sentAcc ++ [SdoClient.abortFrame 0x05040004])
    else
      .ok { s4 with crc := crc_hqx data s4.crc, pos := s4.pos + data.length }
        data sentAcc rest1
  else .ok { s4 with pos := s4.pos + data.length } data sentAcc rest1

/-- Lines 647-650 of `read`: run `_end_upload`, cut the `n` padding bytes
off the final frame, mark the transfer done and finish. -/
def readLast (s2 : BUStream) (response : Frame) (rest sentAcc : List Frame) :
    BUResult :=
  match end_upload s2 rest with
  | (.error e, sent3) => .err e (sentAcc ++ sent3)
  | (.ok (s3, n, rest1), sent3) =>
    readFinish { s3 with done := true } (sliceB response 1 (8 - n))
      (sentAcc ++ sent3) rest1

/-- Lines 645-661 of `read` once an in-sequence data frame is at hand. -/
def readData (s1 : BUStream) (response : Frame) (rest sent1 : List Frame) :
    BUResult :=
  if byte response 0 &&& NO_MORE_BLOCKS ≠ 0 then
    readLast (ackIfNeeded s1 response).1 response rest
      (sent1 ++ (ackIfNeeded s1 response).2)
  else
    readChunk (ackIfNeeded s1 response).1 (sliceB response 1 8)
      (sent1 ++ (ackIfNeeded s1 response).2) rest

/-- `BlockUploadStream.read` (lines 619-661) with a positive `size`:
receive one data frame (resynchronising if needed), ack a completed block,
run the end-of-transfer handshake on the last frame, and accumulate the CRC
over the data bytes, verifying it against the server CRC at the end. -/
def read (s : BUStream) (responses : List Frame) : BUResult :=
  if s.done then .ok s [] [] responses
  else
    match getInSeq s responses with
    | (.error e, sent) => .err e sent
    | (.ok (s1, response, rest), sent1) => readData s1 response rest sent1

/-- The read loop of `readall` over a block upload: iterate `read` until the
stream is done (`fuel` bounds the number of iterations). -/
def readLoop : Nat → BUStream → List Frame → BUResult
  | 0, s, rs => .ok s [] [] rs
  | fuel + 1, s, rs =>
    if s.done then .ok s [] [] rs
    else
      match read s rs with
      | .err e sent => .err e sent
      | .ok s1 data sent rest =>
        match readLoop fuel s1 rest with
        | .err e sent1 => .err e (sent ++ sent1)
        | .ok s2 tail sent1 rest1 => .ok s2 (data ++ tail) (sent ++ sent1) rest1

/-- `BlockUploadStream.close` (lines 699-706): a no-op when already closed;
otherwise mark the stream closed and, only when the transfer is done, send
the client's END acknowledgment frame.  Returns the new `closed` flag and
the frames sent. -/
def close (closed : Bool) (s : BUStream) : Bool × List Frame :=
  if closed then (closed, [])
  else
    (true,
     if s.done then
       [[REQUEST_BLOCK_UPLOAD ||| END_BLOCK_TRANSFER, 0, 0, 0, 0, 0, 0, 0]]
     else [])

end BlockUploadStream

namespace BlockDownloadStream

/-- `BlockDownloadStream._block_ack` (lines 833-853): read the block-ack
response; on a class or sub-command mismatch abort with `0x05040001`; if the
acknowledged sequence number differs from the expected block size, abort
with `0x05040003` and fail; otherwise adopt the server's new block size and
reset `_seqno` to 0.  Returns `(new _blksize, new _seqno)` paired with the
frames sent. -/
def block_ack (blksize : Nat) (arrival : Option Frame) :
    (Except SdoErr (Nat × Nat)) × List Frame :=
  match SdoClient.read_response arrival with
  | .error e => (.error e, [])
  | .ok response =>
    let res_command := byte response 0
    let ackseq := byte response 1
    let blksize1 := byte response 2
    if res_command &&& 0xE0 ≠ RESPONSE_BLOCK_DOWNLOAD then
      (.error (.comm "Unexpected response"), [SdoClient.abortFrame 0x05040001])
    else if res_command &&& 0x3 ≠ BLOCK_TRANSFER_RESPONSE then
      (.error (.comm "Server did not respond with a block download response"),
       [SdoClient.abortFrame 0x05040001])
    else if ackseq ≠ blksize then
      (.error (.comm "Retransmission is not supported yet"),
       [SdoClient.abortFrame 0x05040003])
    else
      (.ok (blksize1, 0), [])

end BlockDownloadStream

theorem crcShift_and (c : Nat) : crcShift c &&& 0xFFFF = crcShift c := by
  unfold crcShift
  split <;> simp [Nat.and_assoc]

theorem crcByte_and (c b : Nat) : crcByte c b &&& 0xFFFF = crcByte c b := by
  unfold crcByte
  exact crcShift_and _

theorem crcFold_and (l : List Nat) (c : Nat) (h : c &&& 0xFFFF = c) :
    List.foldl crcByte c l &&& 0xFFFF = List.foldl crcByte c l := by
  induction l generalizing c with
  | nil => simpa using h
  | cons x xs ih => simpa using ih (crcByte c x) (crcByte_and c x)

theorem crc_hqx_and (d : List Nat) (c : Nat) :
    crc_hqx d c &&& 0xFFFF = crc_hqx d c := by
  unfold crc_hqx
  exact crcFold_and d (c &&& 0xFFFF) (by simp [Nat.and_assoc])

theorem crc_hqx_append (xs ys : List Nat) (c : Nat) :
    crc_hqx (xs ++ ys) c = crc_hqx ys (crc_hqx xs c) := by
  unfold crc_hqx
  rw [List.foldl_append, crcFold_and xs (c &&& 0xFFFF) (by simp [Nat.and_assoc])]

/-- C4: with the default configuration (`MAX_RETRIES = 1`) a transfer whose
server stays silent makes exactly ONE send of the request and raises
`SdoCommunicationError "No SDO response received"` after the FIRST timeout —
the request is never re-sent.  Re-sending once and failing after the second
silent timeout, as the claim (and the code's own `MAX_RETRIES` doc comment)
describes, would require `MAX_RETRIES = 2`, as the last conjunct shows. -/
theorem C4_default_timeout_single_send :
    SdoClient.MAX_RETRIES = 1 ∧
    SdoClient.request_response SdoClient.MAX_RETRIES [none, none] =
      (1, Except.error (SdoErr.comm "No SDO response received")) ∧
    SdoClient.request_response 2 [none, none] =
      (2, Except.error (SdoErr.comm "No SDO response received")) :=
  ⟨rfl, rfl, rfl⟩

/-- C8: whenever the received response frame is an abort frame (command byte
`RESPONSE_ABORTED`), `read_response` raises `SdoAbortedError` carrying the
32-bit little-endian abort code from bytes 4..8, terminating the transfer. -/
theorem C8_abort_raises_aborted_error (r : Frame)
    (h : byte r 0 = RESPONSE_ABORTED) :
    SdoClient.read_response (some r) = .error (.aborted (le32 r 4)) := by
  simp [SdoClient.read_response, h]

/-- C8 witness: scenario 5, response `80 00 10 00 02 00 01 06` gives
`SdoAbortedError(0x06010002)`. -/
theorem C8_abort_raises_aborted_error_witness :
    byte [0x80, 0x00, 0x10, 0x00, 0x02, 0x00, 0x01, 0x06] 0 = RESPONSE_ABORTED ∧
    SdoClient.read_response (some [0x80, 0x00, 0x10, 0x00, 0x02, 0x00, 0x01, 0x06]) =
      .error (.aborted 0x06010002) := by
  refine ⟨by decide, ?_⟩
  rw [C8_abort_raises_aborted_error _ (by decide)]
  rfl

/-- C10: `BlockUploadStream.close` sends the client's END acknowledgment
frame if and only if the transfer is done; closing an unfinished block
upload sends no frame at all, and a second close is a no-op. -/
theorem C10_close_sends_end_iff_done (s : BUStream) :
    BlockUploadStream.close false s =
      (true, if s.done then
        [[REQUEST_BLOCK_UPLOAD ||| END_BLOCK_TRANSFER, 0, 0, 0, 0, 0, 0, 0]]
      else []) ∧
    ((BlockUploadStream.close false s).2 ≠ [] ↔ s.done = true) ∧
    BlockUploadStream.close true s = (true, []) := by
  unfold BlockUploadStream.close
  cases h : s.done <;> simp [h]

/-- C10 witness: a finished transfer sends exactly the END acknowledgment
`A1 00 ...`, an unfinished one sends nothing, and a second close sends
nothing. -/
theorem C10_close_sends_end_iff_done_witness :
    BlockUploadStream.close false
      ⟨true, 14, 39826, some 39826, 2, 127, true⟩ =
      (true, [[0xA1, 0, 0, 0, 0, 0, 0, 0]]) ∧
    BlockUploadStream.close false
      ⟨false, 7, 0, none, 1, 127, true⟩ = (true, []) ∧
    BlockUploadStream.close true
      ⟨true, 14, 39826, some 39826, 2, 127, true⟩ = (true, []) := by
  refine ⟨?_, ?_, ?_⟩
  · rw [(C10_close_sends_end_iff_done ⟨true, 14, 39826, some 39826, 2, 127, true⟩).1]
    decide
  · rw [(C10_close_sends_end_iff_done ⟨false, 7, 0, none, 1, 127, true⟩).1]
    decide
  · exact (C10_close_sends_end_iff_done ⟨true, 14, 39826, some 39826, 2, 127, true⟩).2.2

/-- C7: during a block download, when the block-ack response carries an
acknowledged sequence number different from the expected block size, the
client sends exactly one frame — the abort with code `0x05040003` — and
raises `SdoCommunicationError`; no data frame is retransmitted. -/
theorem C7_block_download_ack_mismatch_aborts (blksize : Nat) (r : Frame)
    (hclass : byte r 0 &&& 0xE0 = RESPONSE_BLOCK_DOWNLOAD)
    (hsub : byte r 0 &&& 0x3 = BLOCK_TRANSFER_RESPONSE)
    (hack : byte r 1 ≠ blksize) :
    BlockDownloadStream.block_ack blksize (some r) =
      (.error (.comm "Retransmission is not supported yet"),
       [SdoClient.abortFrame 0x05040003]) := by
  have hne : byte r 0 ≠ RESPONSE_ABORTED := by
    intro h
    rw [h] at hclass
    exact absurd hclass (by decide)
  simp [BlockDownloadStream.block_ack, SdoClient.read_response, hne, hclass,
    hsub, hack]

/-- C7 witness: server acknowledges 1 of 2 sequences; the client aborts with
`0x05040003`. -/
theorem C7_block_download_ack_mismatch_aborts_witness :
    byte [0xA2, 1, 0x7F, 0, 0, 0, 0, 0] 0 &&& 0xE0 = RESPONSE_BLOCK_DOWNLOAD ∧
    byte [0xA2, 1, 0x7F, 0, 0, 0, 0, 0] 1 ≠ 2 ∧
    BlockDownloadStream.block_ack 2 (some [0xA2, 1, 0x7F, 0, 0, 0, 0, 0]) =
      (.error (.comm "Retransmission is not supported yet"),
       [SdoClient.abortFrame 0x05040003]) :=
  ⟨by decide, by decide,
   C7_block_download_ack_mismatch_aborts 2 [0xA2, 1, 0x7F, 0, 0, 0, 0, 0]
     (by decide) (by decide) (by decide)⟩

/-- C9: on an expedited download descriptor, a `write` with fewer bytes than
the declared size consumes 0 bytes, sends no frame, and leaves the state
(including `pos` and the done flag) untouched. -/
theorem C9_expedited_short_write_noop (s : WStream) (b : List Nat)
    (arrival : Option Frame) (hdr : List Nat) (sz : Nat)
    (hdone : s.done = false) (hexp : s.exp_header = some hdr)
    (hsize : s.size = some sz) (hlen : b.length < sz) :
    WritableStream.write s b arrival = (.ok (s, 0), []) := by
  simp [WritableStream.write, hdone, hexp, hsize, hlen]

/-- C9 witness: an expedited descriptor of size 4 given only 2 bytes returns
0, sends nothing, and is unchanged. -/
theorem C9_expedited_short_write_noop_witness :
    (2 : Nat) < 4 ∧
    WritableStream.write
      ⟨some 4, 0, 0, some [0x23, 0x00, 0x14, 0x02], false⟩ [1, 2] none =
      (.ok (⟨some 4, 0, 0, some [0x23, 0x00, 0x14, 0x02], false⟩, 0), []) :=
  ⟨by decide,
   C9_expedited_short_write_noop _ [1, 2] none [0x23, 0x00, 0x14, 0x02] 4
     rfl rfl rfl (by decide)⟩

/-- Byte 0 of a packed SDO request is its command byte. -/
theorem byte_header (c i s : Nat) (t : List Nat) :
    byte (sdoHeader c i s ++ t) 0 = c := rfl

/-- Bytes 4..8 of a packed SDO request are the first four trailing bytes. -/
theorem sliceB_header (c i s : Nat) (t : List Nat) :
    sliceB (sdoHeader c i s ++ t) 4 8 = t.take 4 := rfl

/-- With no known size, `WritableStream.__init__` initiates a segmented
download with no size field. -/
theorem initRequest_none (index subindex : Nat) (force : Bool) :
    WritableStream.initRequest index subindex none force =
      WInit.segmented (sdoHeader REQUEST_DOWNLOAD index subindex ++ [0, 0, 0, 0]) :=
  rfl

/-- With a known size but `size > 4` or forced segmenting,
`WritableStream.__init__` initiates a segmented download carrying the size. -/
theorem initRequest_some_seg (index subindex sz : Nat) (force : Bool)
    (h : 4 < sz ∨ force = true) :
    WritableStream.initRequest index subindex (some sz) force =
      WInit.segmented (sdoHeader (REQUEST_DOWNLOAD ||| SIZE_SPECIFIED)
        index subindex ++ le32Bytes sz) := by
  have hc : (some sz = none ∨ 4 < (some sz).getD 0 ∨ force = true) := by
    rcases h with h | h
    · exact Or.inr (Or.inl h)
    · exact Or.inr (Or.inr h)
  unfold WritableStream.initRequest
  rw [if_pos hc]
  rfl

/-- With a known size of at most 4 and no forced segmenting,
`WritableStream.__init__` prepares the expedited header. -/
theorem initRequest_some_exp (index subindex sz : Nat) (h : sz ≤ 4) :
    WritableStream.initRequest index subindex (some sz) false =
      WInit.expedited (sdoHeader (REQUEST_DOWNLOAD ||| EXPEDITED |||
        SIZE_SPECIFIED ||| ((4 - sz) <<< 2)) index subindex) := by
  unfold WritableStream.initRequest
  rw [if_neg]
  · rfl
  · intro hc
    rcases hc with hc | hc | hc
    · exact Option.some_ne_none sz hc
    · exact absurd hc (by simpa using h)
    · exact Bool.false_ne_true hc

/-- C5: `WritableStream` initiates an expedited download exactly when the
total size is known, at most 4, and segmented mode is not forced; in every
other case it initiates a segmented download whose request carries the
32-bit little-endian size in bytes 4..8 (with the `SIZE_SPECIFIED` bit)
exactly when the size is known.  `Variable.set_data` forces segmented mode
exactly for `DOMAIN`-typed objects. -/
theorem C5_expedited_iff_small_known_size (index subindex : Nat)
    (size : Option Nat) (force : Bool) :
    ((∃ h, WritableStream.initRequest index subindex size force =
        WInit.expedited h) ↔
      ((∃ sz, size = some sz ∧ sz ≤ 4) ∧ force = false)) ∧
    (∀ req, WritableStream.initRequest index subindex size force =
        WInit.segmented req →
      ((∃ sz, size = some sz ∧ sliceB req 4 8 = le32Bytes sz ∧
          byte req 0 &&& SIZE_SPECIFIED ≠ 0) ∨
       (size = none ∧ sliceB req 4 8 = [0, 0, 0, 0] ∧
          byte req 0 &&& SIZE_SPECIFIED = 0))) ∧
    (∀ dt, Variable.set_data_force dt = true ↔ dt = DOMAIN) := by
  refine ⟨⟨?_, ?_⟩, ?_, fun dt => by simp [Variable.set_data_force]⟩
  · rintro ⟨h, heq⟩
    rcases size with _ | sz
    · rw [initRequest_none] at heq
      exact absurd heq (by simp)
    · by_cases hsz : 4 < sz
      · rw [initRequest_some_seg index subindex sz force (Or.inl hsz)] at heq
        exact absurd heq (by simp)
      · cases hf : force
        · exact ⟨⟨sz, rfl, Nat.le_of_not_lt hsz⟩, rfl⟩
        · rw [hf] at heq
          rw [initRequest_some_seg index subindex sz true (Or.inr rfl)] at heq
          exact absurd heq (by simp)
  · rintro ⟨⟨sz, rfl, hsz⟩, rfl⟩
    exact ⟨_, initRequest_some_exp index subindex sz hsz⟩
  · intro req hreq
    rcases size with _ | sz
    · right
      rw [initRequest_none] at hreq
      rw [WInit.segmented.injEq] at hreq
      subst hreq
      exact ⟨rfl, by rw [sliceB_header]; rfl, by rw [byte_header]; decide⟩
    · left
      by_cases hc : 4 < sz ∨ force = true
      · rw [initRequest_some_seg index subindex sz force hc] at hreq
        rw [WInit.segmented.injEq] at hreq
        subst hreq
        refine ⟨sz, rfl, by rw [sliceB_header]; rfl, ?_⟩
        rw [byte_header]
        decide
      · push_neg at hc
        have hf : force = false := Bool.eq_false_iff.mpr hc.2
        rw [hf, initRequest_some_exp index subindex sz hc.1] at hreq
        exact absurd hreq (by simp)

/-- C5 witness: a 1-byte value is sent expedited; a 9-byte value at 0x1234:0
is sent segmented with size `09 00 00 00` in bytes 4..8. -/
theorem C5_expedited_iff_small_known_size_witness :
    (∃ h, WritableStream.initRequest 0x1400 2 (some 1) false =
      WInit.expedited h) ∧
    WritableStream.initRequest 0x1234 0 (some 9) false =
      WInit.segmented [0x21, 0x34, 0x12, 0x00, 0x09, 0x00, 0x00, 0x00] ∧
    ((∃ sz, some 9 = some sz ∧
        sliceB [0x21, 0x34, 0x12, 0x00, 0x09, 0x00, 0x00, 0x00] 4 8 =
          le32Bytes sz ∧
        byte [0x21, 0x34, 0x12, 0x00, 0x09, 0x00, 0x00, 0x00] 0 &&&
          SIZE_SPECIFIED ≠ 0) ∨
     (some 9 = none ∧
        sliceB [0x21, 0x34, 0x12, 0x00, 0x09, 0x00, 0x00, 0x00] 4 8 =
          [0, 0, 0, 0] ∧
        byte [0x21, 0x34, 0x12, 0x00, 0x09, 0x00, 0x00, 0x00] 0 &&&
          SIZE_SPECIFIED = 0)) := by
  refine ⟨(C5_expedited_iff_small_known_size 0x1400 2 (some 1) false).1.mpr
      ⟨⟨1, rfl, by decide⟩, rfl⟩, rfl, ?_⟩
  exact (C5_expedited_iff_small_known_size 0x1234 0 (some 9) false).2.1 _ rfl


/-- C1: an initiate-upload response with class `RESPONSE_UPLOAD`, the
expedited bit and the size-indicator bit set makes `upload` return exactly
the first `4 - ((c >> 2) & 0x3)` payload bytes (response bytes
`4..4+length`), and the transfer is complete after that single exchange:
the result does not depend on any further frames and the stream is done. -/
theorem C1_expedited_upload_result (index subindex : Nat) (r : Frame)
    (segArrivals : List Frame)
    (hclass : byte r 0 &&& 0xE0 = RESPONSE_UPLOAD)
    (hexp : byte r 0 &&& EXPEDITED ≠ 0)
    (hsz : byte r 0 &&& SIZE_SPECIFIED ≠ 0)
    (hidx : le16 r 1 = index) (hsub : byte r 3 = subindex) :
    ∃ s, SdoClient.upload index subindex (some r) segArrivals =
        .ok (s, sliceB r 4 (4 + (4 - ((byte r 0 >>> 2) &&& 0x3)))) ∧
      s.done = true := by
  have hne : byte r 0 ≠ RESPONSE_ABORTED := by
    intro h
    rw [h] at hclass
    exact absurd hclass (by decide)
  have htake : (sliceB r 4 8).take (4 - ((byte r 0 >>> 2) &&& 0x3)) =
      sliceB r 4 (4 + (4 - ((byte r 0 >>> 2) &&& 0x3))) := by
    have h4 : 4 - ((byte r 0 >>> 2) &&& 0x3) ≤ 4 := Nat.sub_le 4 _
    unfold sliceB
    rw [List.drop_take, List.drop_take, List.take_take]
    congr 1
    omega
  have hinit : ReadableStream.init index subindex (some r) =
      .ok { done := false, toggle := 0,
            pos := 0 + ((sliceB r 4 8).take (4 - ((byte r 0 >>> 2) &&& 0x3))).length,
            size := some (4 - ((byte r 0 >>> 2) &&& 0x3)),
            exp_data := some ((sliceB r 4 8).take (4 - ((byte r 0 >>> 2) &&& 0x3))) } := by
    simp [ReadableStream.init, SdoClient.read_response, hne, hclass, hidx,
      hsub, hexp, hsz]
  refine ⟨{ done := true, toggle := 0,
            pos := 0 + ((sliceB r 4 8).take (4 - ((byte r 0 >>> 2) &&& 0x3))).length,
            size := some (4 - ((byte r 0 >>> 2) &&& 0x3)),
            exp_data := some ((sliceB r 4 8).take (4 - ((byte r 0 >>> 2) &&& 0x3))) },
    ?_, rfl⟩
  unfold SdoClient.upload
  rw [hinit]
  simp [ReadableStream.readall, htake]

/-- C1 witness: scenario 1 — request for 0x1017:0, response
`4B 17 10 00 34 12 00 00` yields exactly the two bytes `[0x34, 0x12]`. -/
theorem C1_expedited_upload_result_witness :
    ∃ s, SdoClient.upload 0x1017 0
        (some [0x4B, 0x17, 0x10, 0x00, 0x34, 0x12, 0x00, 0x00]) [] =
        .ok (s, [0x34, 0x12]) ∧ s.done = true := by
  obtain ⟨s, h1, h2⟩ := C1_expedited_upload_result 0x1017 0
    [0x4B, 0x17, 0x10, 0x00, 0x34, 0x12, 0x00, 0x00] []
    (by decide) (by decide) (by decide) (by decide) (by decide)
  exact ⟨s, by rw [h1]; rfl, h2⟩

/-- C2: a segment-upload response with class `RESPONSE_SEGMENT_UPLOAD` and
matching toggle makes `read` return payload bytes `1..1+length` with
`length = 7 - ((c >> 1) & 0x7)`, mark the transfer done exactly when the
`c & 0x01` bit is set, flip the toggle and advance `pos` by `length`; with a
mismatching toggle bit the read fails with
`SdoCommunicationError "Toggle bit mismatch"`. -/
theorem C2_segment_upload_step (s : RStream) (r : Frame)
    (hdone : s.done = false) (hexp : s.exp_data = none)
    (hclass : byte r 0 &&& 0xE0 = RESPONSE_SEGMENT_UPLOAD) :
    (byte r 0 &&& TOGGLE_BIT = s.toggle →
      ReadableStream.read s (some r) =
        .ok ({ s with
                done := decide (byte r 0 &&& NO_MORE_DATA ≠ 0),
                toggle := s.toggle ^^^ TOGGLE_BIT,
                pos := s.pos + (7 - ((byte r 0 >>> 1) &&& 0x7)) },
             sliceB r 1 (7 - ((byte r 0 >>> 1) &&& 0x7) + 1))) ∧
    (byte r 0 &&& TOGGLE_BIT ≠ s.toggle →
      ReadableStream.read s (some r) =
        .error (.comm "Toggle bit mismatch")) := by
  have hne : byte r 0 ≠ RESPONSE_ABORTED := by
    intro h
    rw [h] at hclass
    exact absurd hclass (by decide)
  constructor
  · intro htog
    by_cases hlast : byte r 0 &&& NO_MORE_DATA ≠ 0 <;>
      simp [ReadableStream.read, SdoClient.read_response, hne, hdone, hexp,
        hclass, htog, hlast]
  · intro htog
    simp [ReadableStream.read, SdoClient.read_response, hne, hdone, hexp,
      hclass, htog]

/-- C2 witness: with toggle 0, the frame `00 01 ... 07` yields 7 bytes and
flips the toggle; the frame `10 ...` (toggle 1) makes the same state fail
with a toggle mismatch. -/
theorem C2_segment_upload_step_witness :
    ReadableStream.read ⟨false, 0, 0, some 10, none⟩
        (some [0x00, 1, 2, 3, 4, 5, 6, 7]) =
      .ok (⟨false, 0x10, 7, some 10, none⟩, [1, 2, 3, 4, 5, 6, 7]) ∧
    ReadableStream.read ⟨false, 0, 7, some 10, none⟩
        (some [0x10, 8, 9, 10, 0, 0, 0, 0]) =
      .error (.comm "Toggle bit mismatch") := by
  constructor
  · rw [(C2_segment_upload_step ⟨false, 0, 0, some 10, none⟩
      [0x00, 1, 2, 3, 4, 5, 6, 7] rfl rfl (by decide)).1 (by decide)]
    rfl
  · exact (C2_segment_upload_step ⟨false, 0, 7, some 10, none⟩
      [0x10, 8, 9, 10, 0, 0, 0, 0] rfl rfl (by decide)).2 (by decide)

/-- C3 counterexample: with the exact frames of scenario 3 (second segment
response `1D 08 09 0A 00 00 00 00`), the upload does NOT return the ten
bytes `01..0A` with `pos = 10`: the command byte `0x1D` encodes 6 unused
bytes, so the second segment contributes a single byte and the code returns
`01..08` with `pos = 8`. -/
theorem C3_scenario3_counterexample :
    ¬ ∃ s, SdoClient.upload 0x1008 0
        (some [0x41, 0x08, 0x10, 0x00, 0x0A, 0x00, 0x00, 0x00])
        [[0x00, 1, 2, 3, 4, 5, 6, 7], [0x1D, 8, 9, 10, 0, 0, 0, 0]] =
        .ok (s, [1, 2, 3, 4, 5, 6, 7, 8, 9, 10]) ∧ s.pos = 10 := by
  rintro ⟨s, h, -⟩
  have h0 : SdoClient.upload 0x1008 0
      (some [0x41, 0x08, 0x10, 0x00, 0x0A, 0x00, 0x00, 0x00])
      [[0x00, 1, 2, 3, 4, 5, 6, 7], [0x1D, 8, 9, 10, 0, 0, 0, 0]] =
      .ok (⟨true, 0, 8, some 10, none⟩, [1, 2, 3, 4, 5, 6, 7, 8]) := rfl
  rw [h0] at h
  simp at h

/-- C3 (amended): with the second segment response encoded with `n = 4`
unused bytes — frame `19 08 09 0A 00 00 00 00` — the segmented upload of
scenario 3 returns exactly the ten bytes `01..0A` and ends with `pos = 10`. -/
theorem C3_scenario3_amended :
    ∃ s, SdoClient.upload 0x1008 0
        (some [0x41, 0x08, 0x10, 0x00, 0x0A, 0x00, 0x00, 0x00])
        [[0x00, 1, 2, 3, 4, 5, 6, 7], [0x19, 8, 9, 10, 0, 0, 0, 0]] =
        .ok (s, [1, 2, 3, 4, 5, 6, 7, 8, 9, 10]) ∧ s.pos = 10 :=
  ⟨⟨true, 0, 10, some 10, none⟩, rfl, rfl⟩

theorem BlockUploadStream.ack_block_eq (s : BUStream) :
    BlockUploadStream.ack_block s =
      ((if s.ackseq = s.blksize then { s with ackseq := 0 } else s),
       [BlockUploadStream.ackFrame s]) := rfl

theorem BlockUploadStream.ack_block_fields (s : BUStream) :
    ((BlockUploadStream.ack_block s).1).crc = s.crc ∧
    ((BlockUploadStream.ack_block s).1).crc_supported = s.crc_supported ∧
    ((BlockUploadStream.ack_block s).1).done = s.done := by
  rw [BlockUploadStream.ack_block_eq]
  split <;> simp

theorem BlockUploadStream.retransmit_fields (s s1 : BUStream) (r : Frame)
    (rs rest sent : List Frame)
    (h : BlockUploadStream.retransmit s rs = (.ok (s1, r, rest), sent)) :
    s1.crc = s.crc ∧ s1.crc_supported = s.crc_supported ∧ s1.done = s.done := by
  unfold BlockUploadStream.retransmit at h
  rw [BlockUploadStream.ack_block_eq] at h
  by_cases hb : s.ackseq = s.blksize
  · rw [if_pos hb] at h
    dsimp only at h
    rcases hf : BlockUploadStream.retransmitFind
        (({ s with ackseq := 0 } : BUStream)).ackseq rs with e | ⟨r2, rest2⟩ <;>
      rw [hf] at h
    · simp at h
    · simp only [Prod.mk.injEq, Except.ok.injEq] at h
      obtain ⟨⟨h1, -, -⟩, -⟩ := h
      subst h1
      exact ⟨rfl, rfl, rfl⟩
  · rw [if_neg hb] at h
    dsimp only at h
    rcases hf : BlockUploadStream.retransmitFind s.ackseq rs with e | ⟨r2, rest2⟩ <;>
      rw [hf] at h
    · simp at h
    · simp only [Prod.mk.injEq, Except.ok.injEq] at h
      obtain ⟨⟨h1, -, -⟩, -⟩ := h
      subst h1
      exact ⟨rfl, rfl, rfl⟩

theorem BlockUploadStream.getInSeq_fields (s s1 : BUStream) (r : Frame)
    (rs rest sent : List Frame)
    (h : BlockUploadStream.getInSeq s rs = (.ok (s1, r, rest), sent)) :
    s1.crc = s.crc ∧ s1.crc_supported = s.crc_supported ∧ s1.done = s.done := by
  unfold BlockUploadStream.getInSeq at h
  rcases rs with _ | ⟨r0, rest0⟩
  · exact BlockUploadStream.retransmit_fields s s1 r [] rest sent h
  · dsimp only at h
    rcases hr : SdoClient.read_response (some r0) with e | resp <;>
      rw [hr] at h <;> dsimp only at h
    · simp at h
    · by_cases hs : byte resp 0 &&& 0x7F = s.ackseq + 1
      · rw [if_pos hs] at h
        simp only [Prod.mk.injEq, Except.ok.injEq] at h
        obtain ⟨⟨h1, -, -⟩, -⟩ := h
        subst h1
        exact ⟨rfl, rfl, rfl⟩
      · rw [if_neg hs] at h
        exact BlockUploadStream.retransmit_fields s s1 r rest0 rest sent h

theorem BlockUploadStream.end_upload_fields (s s1 : BUStream) (n : Nat)
    (rs rest sent : List Frame)
    (h : BlockUploadStream.end_upload s rs = (.ok (s1, n, rest), sent)) :
    s1.crc = s.crc ∧ s1.crc_supported = s.crc_supported ∧ s1.done = s.done ∧
      s1.pos = s.pos := by
  unfold BlockUploadStream.end_upload at h
  rcases hr : SdoClient.read_response rs.head? with e | resp <;> rw [hr] at h
  · simp at h
  · dsimp only at h
    by_cases h1 : byte resp 0 &&& 0xE0 ≠ RESPONSE_BLOCK_UPLOAD
    · rw [if_pos h1] at h
      simp at h
    · rw [if_neg h1] at h
      by_cases h2 : byte resp 0 &&& 0x3 ≠ END_BLOCK_TRANSFER
      · rw [if_pos h2] at h
        simp at h
      · rw [if_neg h2] at h
        simp only [Prod.mk.injEq, Except.ok.injEq] at h
        obtain ⟨⟨hh, -, -⟩, -⟩ := h
        subst hh
        exact ⟨rfl, rfl, rfl, rfl⟩


theorem BlockUploadStream.ackIfNeeded_fields (s1 : BUStream) (r : Frame) :
    ((BlockUploadStream.ackIfNeeded s1 r).1).crc = s1.crc ∧
    ((BlockUploadStream.ackIfNeeded s1 r).1).crc_supported = s1.crc_supported := by
  unfold BlockUploadStream.ackIfNeeded
  split
  · exact ⟨(BlockUploadStream.ack_block_fields s1).1,
           (BlockUploadStream.ack_block_fields s1).2.1⟩
  · exact ⟨rfl, rfl⟩

theorem BlockUploadStream.readChunk_crc (s2 s1 : BUStream) (d data : List Nat)
    (sentAcc rest sent rest1 : List Frame)
    (hsup : s2.crc_supported = true)
    (h : BlockUploadStream.readChunk s2 d sentAcc rest = .ok s1 data sent rest1) :
    s1.crc = crc_hqx d s2.crc ∧ data = d ∧ s1.crc_supported = true := by
  unfold BlockUploadStream.readChunk at h
  rw [if_pos hsup] at h
  injection h with h1 h2 h3 h4
  subst h1
  exact ⟨rfl, h2.symm, hsup⟩

theorem BlockUploadStream.readFinish_crc (s4 s1 : BUStream) (d data : List Nat)
    (sentAcc rest1 sent rest2 : List Frame)
    (hsup : s4.crc_supported = true)
    (h : BlockUploadStream.readFinish s4 d sentAcc rest1 = .ok s1 data sent rest2) :
    s1.crc = crc_hqx d s4.crc ∧ data = d ∧ s1.crc_supported = true := by
  unfold BlockUploadStream.readFinish at h
  rw [if_pos hsup] at h
  split at h
  · simp at h
  · injection h with h1 h2 h3 h4
    subst h1
    exact ⟨rfl, h2.symm, hsup⟩

theorem BlockUploadStream.readLast_crc (s2 s1 : BUStream) (r : Frame)
    (rest sentAcc sent rest2 : List Frame) (data : List Nat)
    (hsup : s2.crc_supported = true)
    (h : BlockUploadStream.readLast s2 r rest sentAcc = .ok s1 data sent rest2) :
    s1.crc = crc_hqx data s2.crc ∧ s1.crc_supported = true := by
  unfold BlockUploadStream.readLast at h
  split at h
  next e sent3 heq => simp at h
  next s3 n rest1 sent3 heq =>
    obtain ⟨hc3, hs3, -, -⟩ :=
      BlockUploadStream.end_upload_fields s2 s3 n rest rest1 sent3 heq
    have hfin := BlockUploadStream.readFinish_crc { s3 with done := true } s1
      (sliceB r 1 (8 - n)) data (sentAcc ++ sent3) rest1 sent rest2
      (by show s3.crc_supported = true; rw [hs3]; exact hsup) h
    refine ⟨?_, hfin.2.2⟩
    rw [hfin.1, hfin.2.1]
    show crc_hqx (sliceB r 1 (8 - n)) s3.crc = _
    rw [hc3]

theorem BlockUploadStream.readData_crc (s2 s1 : BUStream) (r : Frame)
    (rest sent1 sent rest2 : List Frame) (data : List Nat)
    (hsup : s2.crc_supported = true)
    (h : BlockUploadStream.readData s2 r rest sent1 = .ok s1 data sent rest2) :
    s1.crc = crc_hqx data s2.crc ∧ s1.crc_supported = true := by
  unfold BlockUploadStream.readData at h
  obtain ⟨hcA, hsA⟩ := BlockUploadStream.ackIfNeeded_fields s2 r
  split at h
  · have hl := BlockUploadStream.readLast_crc (BlockUploadStream.ackIfNeeded s2 r).1
      s1 r rest (sent1 ++ (BlockUploadStream.ackIfNeeded s2 r).2) sent rest2 data
      (by rw [hsA]; exact hsup) h
    exact ⟨by rw [hl.1, hcA], hl.2⟩
  · have hck := BlockUploadStream.readChunk_crc (BlockUploadStream.ackIfNeeded s2 r).1
      s1 (sliceB r 1 8) data (sent1 ++ (BlockUploadStream.ackIfNeeded s2 r).2)
      rest sent rest2 (by rw [hsA]; exact hsup) h
    refine ⟨?_, hck.2.2⟩
    rw [hck.1, hck.2.1, hcA]

theorem BlockUploadStream.read_crc (s s1 : BUStream) (rs : List Frame)
    (data : List Nat) (sent rest : List Frame)
    (hsup : s.crc_supported = true) (hmask : s.crc &&& 0xFFFF = s.crc)
    (h : BlockUploadStream.read s rs = .ok s1 data sent rest) :
    s1.crc = crc_hqx data s.crc ∧ s1.crc_supported = true ∧
      s1.crc &&& 0xFFFF = s1.crc := by
  unfold BlockUploadStream.read at h
  by_cases hdone : s.done = true
  · rw [if_pos hdone] at h
    injection h with h1 h2 h3 h4
    subst h1
    subst h2
    exact ⟨by simpa [crc_hqx] using hmask.symm, hsup, hmask⟩
  · rw [if_neg hdone] at h
    split at h
    next e sent0 heq => simp at h
    next s2 response rest0 sent1 heq =>
      obtain ⟨hc2, hs2, -⟩ :=
        BlockUploadStream.getInSeq_fields s s2 response rs rest0 sent1 heq
      have hr := BlockUploadStream.readData_crc s2 s1 response rest0 sent1
        sent rest data (by rw [hs2]; exact hsup) h
      refine ⟨by rw [hr.1, hc2], hr.2, ?_⟩
      rw [hr.1]
      exact crc_hqx_and _ _

/-- C6: for a block upload with CRC enabled, (1) over any run of the read
loop the client's accumulated CRC equals CRC-16-CCITT (init 0 — or, here,
any 16-bit running value — polynomial 0x1021, no reflection, no final xor)
of the logical byte stream it produced, in which the `n = (c >> 2) & 0x7`
padding bytes named by the END frame's command byte never appear, and
(2) when the server's CRC in END-frame bytes 1..3 differs from the computed
value, the client sends the abort `0x05040004` and the read fails with
`SdoCommunicationError "CRC is not OK"`. -/
theorem C6_block_upload_crc_verified :
    (∀ fuel s rs s1 D sent rest,
        s.crc_supported = true → s.crc &&& 0xFFFF = s.crc →
        BlockUploadStream.readLoop fuel s rs = .ok s1 D sent rest →
        s1.crc = crc_hqx D s.crc) ∧
    (∀ s r e rest, s.done = false → s.crc_supported = true →
        byte r 0 &&& 0x7F = s.ackseq + 1 →
        byte r 0 &&& NO_MORE_BLOCKS ≠ 0 →
        byte e 0 &&& 0xE0 = RESPONSE_BLOCK_UPLOAD →
        byte e 0 &&& 0x3 = END_BLOCK_TRANSFER →
        le16 e 1 ≠ crc_hqx (sliceB r 1 (8 - ((byte e 0 >>> 2) &&& 0x7))) s.crc →
        BlockUploadStream.read s (r :: e :: rest) =
          .err (.comm "CRC is not OK")
            [BlockUploadStream.ackFrame { s with ackseq := s.ackseq + 1 },
             SdoClient.abortFrame 0x05040004]) := by
  constructor
  · intro fuel
    induction fuel with
    | zero =>
      intro s rs s1 D sent rest hsup hmask h
      rw [show BlockUploadStream.readLoop 0 s rs = .ok s [] [] rs from rfl] at h
      injection h with h1 h2 h3 h4
      subst h1
      subst h2
      simpa [crc_hqx] using hmask.symm
    | succ n ih =>
      intro s rs s1 D sent rest hsup hmask h
      unfold BlockUploadStream.readLoop at h
      by_cases hdone : s.done = true
      · rw [if_pos hdone] at h
        injection h with h1 h2 h3 h4
        subst h1
        subst h2
        simpa [crc_hqx] using hmask.symm
      · rw [if_neg hdone] at h
        split at h
        next e sent0 heq => simp at h
        next s2 data2 sent2 rest2 heq =>
          split at h
          next e sent3 heq2 => simp at h
          next s3 tail sent3 rest3 heq2 =>
            injection h with h1 h2 h3 h4
            subst h1
            subst h2
            obtain ⟨hcrc2, hsup2, hmask2⟩ :=
              BlockUploadStream.read_crc s s2 rs data2 sent2 rest2 hsup hmask heq
            rw [crc_hqx_append, ← hcrc2]
            exact ih s2 rest2 s3 tail sent3 rest3 hsup2 hmask2 heq2
  · intro s r e rest hdone hsup hseq hlast hclasse hsube hmis
    have hner : byte r 0 ≠ RESPONSE_ABORTED := by
      intro hx
      rw [hx] at hseq
      exact absurd hseq.symm (by simp [RESPONSE_ABORTED])
    have hnee : byte e 0 ≠ RESPONSE_ABORTED := by
      intro hx
      rw [hx] at hclasse
      exact absurd hclasse (by decide)
    have h1 : SdoClient.read_response (some r) = .ok r := by
      simp [SdoClient.read_response, hner]
    have h2 : BlockUploadStream.getInSeq s (r :: e :: rest) =
        (.ok ({ s with ackseq := s.ackseq + 1 }, r, e :: rest), []) := by
      simp [BlockUploadStream.getInSeq, h1, hseq]
    have h3 : SdoClient.read_response (some e) = .ok e := by
      simp [SdoClient.read_response, hnee]
    have hAeq : BlockUploadStream.ackIfNeeded { s with ackseq := s.ackseq + 1 } r =
        ((BlockUploadStream.ack_block { s with ackseq := s.ackseq + 1 }).1,
         [BlockUploadStream.ackFrame { s with ackseq := s.ackseq + 1 }]) := by
      unfold BlockUploadStream.ackIfNeeded
      rw [if_pos (Or.inr hlast)]
      rw [BlockUploadStream.ack_block_eq]
    obtain ⟨hs2crc, hs2sup⟩ :=
      BlockUploadStream.ack_block_fields { s with ackseq := s.ackseq + 1 }
    have h4 : BlockUploadStream.end_upload
        (BlockUploadStream.ack_block { s with ackseq := s.ackseq + 1 }).1
        (e :: rest) =
        (.ok ({ (BlockUploadStream.ack_block { s with ackseq := s.ackseq + 1 }).1
                  with server_crc := some (le16 e 1) },
              (byte e 0 >>> 2) &&& 0x7, rest), []) := by
      simp [BlockUploadStream.end_upload, h3, hclasse, hsube]
    unfold BlockUploadStream.read
    rw [if_neg (by rw [hdone]; exact Bool.false_ne_true), h2]
    show BlockUploadStream.readData { s with ackseq := s.ackseq + 1 } r (e :: rest) [] = _
    unfold BlockUploadStream.readData
    rw [if_pos hlast, hAeq]
    show BlockUploadStream.readLast
      (BlockUploadStream.ack_block { s with ackseq := s.ackseq + 1 }).1 r (e :: rest)
      ([] ++ [BlockUploadStream.ackFrame { s with ackseq := s.ackseq + 1 }]) = _
    unfold BlockUploadStream.readLast
    rw [h4]
    show BlockUploadStream.readFinish
      { (BlockUploadStream.ack_block { s with ackseq := s.ackseq + 1 }).1 with
          server_crc := some (le16 e 1), done := true }
      (sliceB r 1 (8 - ((byte e 0 >>> 2) &&& 0x7)))
      (([] ++ [BlockUploadStream.ackFrame { s with ackseq := s.ackseq + 1 }]) ++ []) _ = _
    have hfsup : (BlockUploadStream.ack_block
        { s with ackseq := s.ackseq + 1 }).1.crc_supported = true := by
      rw [hs2sup.1]
      exact hsup
    have hfcrc : (BlockUploadStream.ack_block
        { s with ackseq := s.ackseq + 1 }).1.crc = s.crc := hs2crc
    simp [BlockUploadStream.readFinish, hfsup, hfcrc, hmis]

/-- C6 witness: a 14-byte block upload (scenario 4 shape) accumulates CRC
`39826 = crc_hqx (01..0E) 0`; and a mid-transfer state whose final frame
carries a wrong server CRC aborts with `0x05040004` (frame
`80 00 00 00 04 00 04 05`) and fails with "CRC is not OK". -/
theorem C6_block_upload_crc_verified_witness :
    (39826 : Nat) =
      crc_hqx [1, 2, 3, 4, 5, 6, 7, 8, 9, 10, 11, 12, 13, 14] 0 ∧
    BlockUploadStream.read ⟨false, 7, 30000, none, 1, 127, true⟩
        [[0x82, 8, 9, 10, 11, 12, 13, 14], [0xC1, 0, 0, 0, 0, 0, 0, 0]] =
      .err (.comm "CRC is not OK")
        [[0xA2, 2, 127, 0, 0, 0, 0, 0], [0x80, 0, 0, 0, 0x04, 0x00, 0x04, 0x05]] := by
  constructor
  · exact C6_block_upload_crc_verified.1 3
      ⟨false, 0, 0, none, 0, 127, true⟩
      [[0x01, 1, 2, 3, 4, 5, 6, 7], [0x82, 8, 9, 10, 11, 12, 13, 14],
       [0xC1, 0x92, 0x9B, 0, 0, 0, 0, 0]]
      ⟨true, 14, 39826, some 39826, 2, 127, true⟩
      [1, 2, 3, 4, 5, 6, 7, 8, 9, 10, 11, 12, 13, 14]
      [[0xA2, 2, 127, 0, 0, 0, 0, 0]] [] rfl (by decide) rfl
  · exact C6_block_upload_crc_verified.2
      ⟨false, 7, 30000, none, 1, 127, true⟩
      [0x82, 8, 9, 10, 11, 12, 13, 14] [0xC1, 0, 0, 0, 0, 0, 0, 0] []
      rfl rfl (by decide) (by decide) (by decide) (by decide) (by decide)
